import Mathlib

/-!
Verification of the jay::time timezone / civil-time conversion engine.

The definitions below are shallow embeddings of the C++ sources
(`time.cpp`, `timezone.cpp`).  Machine integers are modelled as `Nat`
(for the unsigned WORD/DWORD fields) and `Int` (for LONG / long long),
with wrap-around made explicit (`wrap64`) where the C computation can
overflow.  Out-parameters become returned values: a `bool f(T &out)`
function becomes `Option T` when the failure value of the out-parameter
is unspecified by the documented contract, and `Bool × T` when the claim
under study depends on the value left in the out-parameter on failure.

The platform primitives (`SystemTimeToFileTime`, `FileTimeToSystemTime`
and the timezone-rule provider behind `GetTimezoneForYear`) are not part
of the repository; they are modelled from the spec, and each such
definition carries a doc comment saying so.
-/

namespace JayTime

/-- Embeds the Windows `SYSTEMTIME` struct: all fields are 16-bit
unsigned words, modelled as `Nat`. Field order follows the declaration. -/
structure SYSTEMTIME where
  wYear : Nat
  wMonth : Nat
  wDayOfWeek : Nat
  wDay : Nat
  wHour : Nat
  wMinute : Nat
  wSecond : Nat
  wMilliseconds : Nat
deriving DecidableEq, Repr

/-- The all-zero `SYSTEMTIME`, i.e. the C aggregate initializer. -/
def zeroSystemTime : SYSTEMTIME := ⟨0, 0, 0, 0, 0, 0, 0, 0⟩

/-- Embeds the Windows `FILETIME` struct: two 32-bit unsigned words. -/
structure FILETIME where
  dwLowDateTime : Nat
  dwHighDateTime : Nat
deriving DecidableEq, Repr

/-- time.hpp `IsYearValid`: year within the range allowable by MS. -/
def IsYearValid (year : Nat) : Bool :=
  decide (1601 ≤ year) && decide (year ≤ 30827)

/-- time.cpp `IsLeapYear`: Gregorian leap-year rule, no range check. -/
def IsLeapYear (year : Nat) : Bool :=
  if year % 400 = 0 then true
  else if year % 100 = 0 then false
  else if year % 4 = 0 then true
  else false

/-- time.cpp `IsDateValid`: the `days_in_month` table lookup,
`days_in_month[month-1]` for `month` in `[1,12]`. -/
def daysInMonthTable (month : Nat) : Nat :=
  match month with
  | 1 => 31 | 2 => 28 | 3 => 31 | 4 => 30 | 5 => 31 | 6 => 30
  | 7 => 31 | 8 => 31 | 9 => 30 | 10 => 31 | 11 => 30 | 12 => 31
  | _ => 0

/-- time.cpp `IsDateValid`. -/
def IsDateValid (day month year : Nat) : Bool :=
  if !IsYearValid year || decide (month < 1) || decide (12 < month)
      || decide (day < 1) || decide (31 < day) then
    false
  else
    decide (day ≤ daysInMonthTable month)
      || (decide (day = 29) && decide (month = 2) && IsLeapYear year)

/-- time.cpp `GetDayOfWeek`: the `t` table of the Sakamoto method,
`t[month-1]` for `month` in `[1,12]`. -/
def sakamotoTable (month : Nat) : Nat :=
  match month with
  | 1 => 0 | 2 => 3 | 3 => 2 | 4 => 5 | 5 => 0 | 6 => 3
  | 7 => 5 | 8 => 1 | 9 => 4 | 10 => 6 | 11 => 2 | _ => 4

/-- time.cpp `GetDayOfWeek` (Sakamoto method), returning `[0=Sun, 6=Sat]`.
The C source computes `y = year - (month < 3)` in 32-bit unsigned
arithmetic; the wrap at `year = 0` is modelled exactly. -/
def GetDayOfWeek (day month year : Nat) : Nat :=
  if decide (month < 1) || decide (12 < month) then 0
  else
    let y := if month < 3 then (year + 4294967295) % 4294967296 else year
    (y + y / 4 - y / 100 + y / 400 + sakamotoTable month + day) % 7

/-- time.cpp `IsSystemTimeValid_IgnoreDayOfWeek`. -/
def IsSystemTimeValid_IgnoreDayOfWeek (st : SYSTEMTIME) : Bool :=
  IsDateValid st.wDay st.wMonth st.wYear
    && decide (st.wHour ≤ 23)
    && decide (st.wMinute ≤ 59)
    && decide (st.wSecond ≤ 59)
    && decide (st.wMilliseconds ≤ 999)

/-- time.cpp `IsSystemTimeValid`. -/
def IsSystemTimeValid (st : SYSTEMTIME) : Bool :=
  IsSystemTimeValid_IgnoreDayOfWeek st
    && decide (st.wDayOfWeek = GetDayOfWeek st.wDay st.wMonth st.wYear)

/-- time.cpp `IsFileTimeValid`: `max = { 0xF06C58F0, 0x7FFF35F4 }`,
"the same time as max SYSTEMTIME". -/
def IsFileTimeValid (ft : FILETIME) : Bool :=
  decide (ft.dwHighDateTime < 0x7FFF35F4)
    || (decide (ft.dwHighDateTime = 0x7FFF35F4)
        && decide (ft.dwLowDateTime ≤ 0xF06C58F0))

/-- `LLONG_MAX` from limits.h. -/
def LLONG_MAX : Int := 9223372036854775807

/-- `LLONG_MIN` from limits.h. -/
def LLONG_MIN : Int := -9223372036854775808

/-- The signed 64-bit value of `LARGE_INTEGER li = { { ft.dwLowDateTime,
(LONG)ft.dwHighDateTime } }`, i.e. `li.QuadPart` read through the union
as a twos-complement value. -/
def fileTimeQuad (ft : FILETIME) : Int :=
  if ft.dwHighDateTime * 4294967296 + ft.dwLowDateTime < 9223372036854775808
  then ((ft.dwHighDateTime * 4294967296 + ft.dwLowDateTime : Nat) : Int)
  else ((ft.dwHighDateTime * 4294967296 + ft.dwLowDateTime : Nat) : Int)
    - 18446744073709551616

/-- Writing a signed 64-bit value back through the union:
`ft.dwLowDateTime = li.LowPart; ft.dwHighDateTime = (DWORD)li.HighPart`. -/
def fileTimeOfQuad (q : Int) : FILETIME :=
  ⟨(q % 18446744073709551616).toNat % 4294967296,
    (q % 18446744073709551616).toNat / 4294967296⟩

/-- Twos-complement wrap of an integer into the signed 64-bit range,
modelling overflow of C `long long` arithmetic. -/
def wrap64 (x : Int) : Int :=
  (x + 9223372036854775808) % 18446744073709551616 - 9223372036854775808

/-- time.cpp `FileTimeSubtract100nsIntervals`. The out-parameter `ft`
is threaded explicitly: the result pair is (return value, final `ft`). -/
def FileTimeSubtract100nsIntervals (ft : FILETIME) (intervals : Int) :
    Bool × FILETIME :=
  if IsFileTimeValid ft = false then (false, ft)
  else if intervals = 0 then (true, ft)
  else
    let q := fileTimeQuad ft
    if (0 < intervals ∧ q < LLONG_MIN + intervals)
        ∨ (intervals < 0 ∧ LLONG_MAX + intervals < q) then
      (false, ft)
    else
      let ft2 := fileTimeOfQuad (q - intervals)
      (IsFileTimeValid ft2, ft2)

/-- time.cpp `FileTimeAdd100nsIntervals`. -/
def FileTimeAdd100nsIntervals (ft : FILETIME) (intervals : Int) :
    Bool × FILETIME :=
  if (intervals < 0 ∧ LLONG_MAX + intervals < 0)
      ∨ (0 < intervals ∧ 0 < LLONG_MIN + intervals) then
    (false, ft)
  else
    FileTimeSubtract100nsIntervals ft (-intervals)

/-- time.cpp `FileTimeSubtractMinutes`: the C source computes
`minutes * 10000 * 1000 * 60` in `long long`; that multiplication is not
checked for overflow, so it is modelled as a twos-complement wrap. -/
def FileTimeSubtractMinutes (ft : FILETIME) (minutes : Int) : Bool × FILETIME :=
  FileTimeSubtract100nsIntervals ft (wrap64 (minutes * 10000 * 1000 * 60))

/-- time.cpp `FileTimeAddMinutes`, with the same wrapping multiplication. -/
def FileTimeAddMinutes (ft : FILETIME) (minutes : Int) : Bool × FILETIME :=
  FileTimeAdd100nsIntervals ft (wrap64 (minutes * 10000 * 1000 * 60))

/-- time.cpp `CompareSystemTimes_IgnoreDayOfWeek`: lexicographic compare
of the seven non-dayOfWeek fields, returning -1, 0 or 1. -/
def CompareSystemTimes_IgnoreDayOfWeek (a b : SYSTEMTIME) : Int :=
  if a.wYear < b.wYear then -1 else if b.wYear < a.wYear then 1
  else if a.wMonth < b.wMonth then -1 else if b.wMonth < a.wMonth then 1
  else if a.wDay < b.wDay then -1 else if b.wDay < a.wDay then 1
  else if a.wHour < b.wHour then -1 else if b.wHour < a.wHour then 1
  else if a.wMinute < b.wMinute then -1 else if b.wMinute < a.wMinute then 1
  else if a.wSecond < b.wSecond then -1 else if b.wSecond < a.wSecond then 1
  else if a.wMilliseconds < b.wMilliseconds then -1
  else if b.wMilliseconds < a.wMilliseconds then 1
  else 0

/-- time.cpp `CompareSystemTimes`: the ignore-dayOfWeek compare, with
`wDayOfWeek` as the final tiebreaker. -/
def CompareSystemTimes (a b : SYSTEMTIME) : Int :=
  let x := CompareSystemTimes_IgnoreDayOfWeek a b
  if x ≠ 0 then x
  else if a.wDayOfWeek < b.wDayOfWeek then -1
  else if b.wDayOfWeek < a.wDayOfWeek then 1
  else 0

/-- Modelled from the spec: the TickCalendarBridge primitive (platform
`SystemTimeToFileTime` / `FileTimeToSystemTime`) is an external
collaborator "assumed available at this layer boundary" providing
"lossless, two-way conversion between tick counts and calendar field
sets". Count of leap years in `[1, y]` of the proleptic Gregorian
calendar. -/
def leapsThrough (y : Nat) : Nat := y / 4 - y / 100 + y / 400

/-- Modelled from the spec: days from 1601-01-01 to the first of the
given year (`leapsThrough 1600 = 388`). -/
def daysToYear (y : Nat) : Nat :=
  365 * (y - 1601) + (leapsThrough (y - 1) - 388)

/-- Modelled from the spec: days from the first of the year to the first
of the given month. -/
def daysBeforeMonth (month : Nat) (leap : Bool) : Nat :=
  let base :=
    match month with
    | 1 => 0 | 2 => 31 | 3 => 59 | 4 => 90 | 5 => 120 | 6 => 151
    | 7 => 181 | 8 => 212 | 9 => 243 | 10 => 273 | 11 => 304 | _ => 334
  base + (if 2 < month ∧ leap = true then 1 else 0)

/-- Modelled from the spec: days from 1601-01-01 to the given civil date
(meaningful for valid dates with year at least 1601). -/
def daysFromCivil (y m d : Nat) : Nat :=
  daysToYear y + daysBeforeMonth m (IsLeapYear y) + (d - 1)

/-- Modelled from the spec: the 100 ns tick count of a calendar time,
reference epoch 1601-01-01T00:00:00.000. -/
def ticksFromSystemTime (st : SYSTEMTIME) : Nat :=
  (((((daysFromCivil st.wYear st.wMonth st.wDay * 24 + st.wHour) * 60
      + st.wMinute) * 60 + st.wSecond) * 1000 + st.wMilliseconds)) * 10000

/-- Modelled from the spec: inverse of `daysBeforeMonth`; month and
day-of-month of a zero-based day of year. -/
def monthDayFromDayOfYear (doy : Nat) (leap : Bool) : Nat × Nat :=
  let l := if leap then 1 else 0
  if doy < 31 then (1, doy + 1)
  else if doy < 59 + l then (2, doy - 31 + 1)
  else if doy < 90 + l then (3, doy - (59 + l) + 1)
  else if doy < 120 + l then (4, doy - (90 + l) + 1)
  else if doy < 151 + l then (5, doy - (120 + l) + 1)
  else if doy < 181 + l then (6, doy - (151 + l) + 1)
  else if doy < 212 + l then (7, doy - (181 + l) + 1)
  else if doy < 243 + l then (8, doy - (212 + l) + 1)
  else if doy < 273 + l then (9, doy - (243 + l) + 1)
  else if doy < 304 + l then (10, doy - (273 + l) + 1)
  else if doy < 334 + l then (11, doy - (304 + l) + 1)
  else (12, doy - (334 + l) + 1)

/-- Modelled from the spec: days from an era start (1601 plus a multiple
of 400) to the first of the k-th year of the era. -/
def daysIntoEra (k : Nat) : Nat := 365 * k + k / 4 - k / 100 + k / 400

/-- Modelled from the spec: inverse of `daysFromCivil`; the civil date
`(year, month, day)` of a day count since 1601-01-01. The year within
the 400-year era is located by an estimate `doe / 366` which undershoots
by at most 2. -/
def civilFromDays (z : Nat) : Nat × Nat × Nat :=
  let era := z / 146097
  let doe := z % 146097
  let yoe0 := doe / 366
  let yoe :=
    if doe < daysIntoEra (yoe0 + 1) then yoe0
    else if doe < daysIntoEra (yoe0 + 2) then yoe0 + 1
    else yoe0 + 2
  let year := 1601 + era * 400 + yoe
  let doy := doe - daysIntoEra yoe
  let md := monthDayFromDayOfYear doy (IsLeapYear year)
  (year, md.1, md.2)

/-- Modelled from the spec: the calendar time of a 100 ns tick count,
with `wDayOfWeek` derived from the day count (1601-01-01 was a Monday). -/
def systemTimeFromTicks (t : Nat) : SYSTEMTIME :=
  let days := t / 864000000000
  let ymd := civilFromDays days
  ⟨ymd.1, ymd.2.1, (days + 1) % 7, ymd.2.2,
    t / 36000000000 % 24, t / 600000000 % 60, t / 10000000 % 60,
    t / 10000 % 1000⟩

/-- Modelled from the spec: the platform `SystemTimeToFileTime`, which
converts a relaxed-valid calendar time to ticks and fails otherwise
(`wDayOfWeek` is ignored). -/
def SystemTimeToFileTime (st : SYSTEMTIME) : Option FILETIME :=
  if IsSystemTimeValid_IgnoreDayOfWeek st = true then
    some (fileTimeOfQuad (ticksFromSystemTime st))
  else none

/-- Modelled from the spec: the platform `FileTimeToSystemTime`, which
converts a tick count within the supported span back to calendar fields
and fails otherwise. -/
def FileTimeToSystemTime (ft : FILETIME) : Option SYSTEMTIME :=
  if IsFileTimeValid ft = true then
    some (systemTimeFromTicks
      (ft.dwHighDateTime * 4294967296 + ft.dwLowDateTime))
  else none

/-- time.cpp `SystemTimeSubtractMinutes`: validity check, conversion to
`FILETIME`, tick subtraction, conversion back. On failure the C
out-parameter is unspecified by the header contract, hence `Option`. -/
def SystemTimeSubtractMinutes (st : SYSTEMTIME) (minutes : Int) :
    Option SYSTEMTIME :=
  if IsSystemTimeValid st = false then none
  else
    match SystemTimeToFileTime st with
    | none => none
    | some ft =>
      match FileTimeSubtractMinutes ft minutes with
      | (true, ft2) => FileTimeToSystemTime ft2
      | (false, _) => none

/-- time.cpp `SystemTimeAddMinutes`. -/
def SystemTimeAddMinutes (st : SYSTEMTIME) (minutes : Int) :
    Option SYSTEMTIME :=
  if IsSystemTimeValid st = false then none
  else
    match SystemTimeToFileTime st with
    | none => none
    | some ft =>
      match FileTimeAddMinutes ft minutes with
      | (true, ft2) => FileTimeToSystemTime ft2
      | (false, _) => none

/-- timezone.cpp `IsRelativeTimezoneTimeValid`. -/
def IsRelativeTimezoneTimeValid (tzt : SYSTEMTIME) : Bool :=
  decide (tzt.wYear = 0)
    && decide (1 ≤ tzt.wMonth) && decide (tzt.wMonth ≤ 12)
    && decide (tzt.wDayOfWeek ≤ 6)
    && decide (1 ≤ tzt.wDay) && decide (tzt.wDay ≤ 5)
    && decide (tzt.wHour ≤ 23)
    && decide (tzt.wMinute ≤ 59)
    && decide (tzt.wSecond ≤ 59)
    && decide (tzt.wMilliseconds ≤ 999)

/-- timezone.cpp `IsAbsoluteTimezoneTimeValid`. -/
def IsAbsoluteTimezoneTimeValid (tzt : SYSTEMTIME) : Bool :=
  IsSystemTimeValid_IgnoreDayOfWeek tzt

/-- timezone.cpp `IsTimezoneTimeValid`. -/
def IsTimezoneTimeValid (tzt : SYSTEMTIME) : Bool :=
  IsRelativeTimezoneTimeValid tzt || IsAbsoluteTimezoneTimeValid tzt

/-- timezone.hpp `IsTimezoneTimeIgnored`: `!tzt.wMonth`. -/
def IsTimezoneTimeIgnored (tzt : SYSTEMTIME) : Bool :=
  decide (tzt.wMonth = 0)

/-- Embeds the Windows `TIME_ZONE_INFORMATION` struct. The biases are
`LONG` (signed 32-bit), modelled as `Int`. The `WCHAR [32]` name arrays
enter the code only through the `wmemchr(name, 0, 32)` null-terminator
checks of `IsTimezoneInfoValid`, so each array is abstracted to the
`Bool` result of that check. -/
structure TIME_ZONE_INFORMATION where
  Bias : Int
  StandardNameHasNull : Bool
  StandardDate : SYSTEMTIME
  StandardBias : Int
  DaylightNameHasNull : Bool
  DaylightDate : SYSTEMTIME
  DaylightBias : Int
deriving DecidableEq, Repr

/-- timezone.cpp `AreTimezoneBiasesValid`, with `max_diff = 24 * 60`. -/
def AreTimezoneBiasesValid (tzi : TIME_ZONE_INFORMATION) : Bool :=
  let max_diff : Int := 24 * 60
  if (0 < tzi.Bias ∧ max_diff < tzi.Bias)
      ∨ (tzi.Bias < 0 ∧ tzi.Bias < -max_diff)
      ∨ (0 < tzi.StandardBias ∧ max_diff - tzi.StandardBias < tzi.Bias)
      ∨ (tzi.StandardBias < 0 ∧ tzi.Bias < -max_diff - tzi.StandardBias)
      ∨ (0 < tzi.DaylightBias ∧ max_diff - tzi.DaylightBias < tzi.Bias)
      ∨ (tzi.DaylightBias < 0 ∧ tzi.Bias < -max_diff - tzi.DaylightBias)
  then false
  else true

/-- timezone.cpp `IsTimezoneInfoValid`. -/
def IsTimezoneInfoValid (tzi : TIME_ZONE_INFORMATION)
    (allow_ignored_dates : Bool) : Bool :=
  AreTimezoneBiasesValid tzi
    && (IsTimezoneTimeValid tzi.StandardDate
        || (allow_ignored_dates && IsTimezoneTimeIgnored tzi.StandardDate))
    && (IsTimezoneTimeValid tzi.DaylightDate
        || (allow_ignored_dates && IsTimezoneTimeIgnored tzi.DaylightDate))
    && tzi.StandardNameHasNull
    && tzi.DaylightNameHasNull

/-- timezone.cpp `LocalTimeToRelativeTimezoneTime`: absolute local date
to relative rule; occurrence `(wDay-1)/7 + 1`, promoted to 5 when it is
4, `wDay + 7` is not a valid date and the flag is set. -/
def LocalTimeToRelativeTimezoneTime (local_st : SYSTEMTIME)
    (make_final_occurrence_if_last_occurrence : Bool) : Option SYSTEMTIME :=
  if IsSystemTimeValid_IgnoreDayOfWeek local_st = false then none
  else
    let occurrence :=
      if (local_st.wDay - 1) / 7 + 1 = 4
          ∧ IsDateValid (local_st.wDay + 7) local_st.wMonth local_st.wYear = false
          ∧ make_final_occurrence_if_last_occurrence = true
      then 5
      else (local_st.wDay - 1) / 7 + 1
    some ⟨0, local_st.wMonth,
      GetDayOfWeek local_st.wDay local_st.wMonth local_st.wYear,
      occurrence, local_st.wHour, local_st.wMinute, local_st.wSecond,
      local_st.wMilliseconds⟩

/-- timezone.cpp `TimezoneTimeToLocalTime`: relative rule (or absolute
timezone time) to absolute local date for `tzt_year`. -/
def TimezoneTimeToLocalTime (tzt : SYSTEMTIME) (tzt_year : Nat) :
    Option SYSTEMTIME :=
  if IsRelativeTimezoneTimeValid tzt = false then
    if IsAbsoluteTimezoneTimeValid tzt = true then
      some ⟨tzt.wYear, tzt.wMonth,
        GetDayOfWeek tzt.wDay tzt.wMonth tzt.wYear,
        tzt.wDay, tzt.wHour, tzt.wMinute, tzt.wSecond, tzt.wMilliseconds⟩
    else none
  else if IsYearValid tzt_year = false then none
  else
    let first_day_of_week := GetDayOfWeek 1 tzt.wMonth tzt_year
    let days_after_first_occurrence := (tzt.wDay - 1) * 7
    let day :=
      if first_day_of_week ≤ tzt.wDayOfWeek then
        (tzt.wDayOfWeek - first_day_of_week) + 1 + days_after_first_occurrence
      else
        (6 - first_day_of_week) + 1 + tzt.wDayOfWeek + 1
          + days_after_first_occurrence
    let day :=
      if IsDateValid day tzt.wMonth tzt_year = false then day - 7 else day
    some ⟨tzt_year, tzt.wMonth, tzt.wDayOfWeek, day,
      tzt.wHour, tzt.wMinute, tzt.wSecond, tzt.wMilliseconds⟩

/-- timezone.cpp `CompareLocalTimeToTimezoneTime`: `local2` is
zero-initialised and left untouched when the conversion fails (the
return value of `TimezoneTimeToLocalTime` is not checked). -/
def CompareLocalTimeToTimezoneTime (local_st tzt : SYSTEMTIME) : Int :=
  let local2 := (TimezoneTimeToLocalTime tzt local_st.wYear).getD zeroSystemTime
  CompareSystemTimes local_st local2

/-- winbase.h `TIME_ZONE_ID_INVALID` (`(DWORD)0xFFFFFFFF`). -/
def TIME_ZONE_ID_INVALID : Nat := 4294967295

/-- winbase.h `TIME_ZONE_ID_UNKNOWN`. -/
def TIME_ZONE_ID_UNKNOWN : Nat := 0

/-- winbase.h `TIME_ZONE_ID_STANDARD`. -/
def TIME_ZONE_ID_STANDARD : Nat := 1

/-- winbase.h `TIME_ZONE_ID_DAYLIGHT`. -/
def TIME_ZONE_ID_DAYLIGHT : Nat := 2

/-- timezone.cpp `GetLocalTimeForTimezone`. Result: (returned DWORD,
final value of the `local_time` out-parameter). The `COPY_TO_local_time`
macro assigns `local_time` before the strict-mode year check, so on that
failure path the out-parameter holds the rejected candidate; on the
earlier failure paths it is unchanged. The `return false` of the
invalid-year path leaves the DWORD value 0, which equals
`TIME_ZONE_ID_UNKNOWN`. -/
def GetLocalTimeForTimezone (local_time : SYSTEMTIME)
    (tzi : TIME_ZONE_INFORMATION) (utc_st : SYSTEMTIME)
    (tzi_year : Nat) (strict : Bool) : Nat × SYSTEMTIME :=
  let y := if tzi_year = 0 then utc_st.wYear else tzi_year
  if IsYearValid y = false then (0, local_time)
  else if IsTimezoneInfoValid tzi true = false then
    (TIME_ZONE_ID_INVALID, local_time)
  else
    match SystemTimeSubtractMinutes utc_st tzi.Bias,
        SystemTimeSubtractMinutes utc_st (tzi.Bias + tzi.StandardBias),
        SystemTimeSubtractMinutes utc_st (tzi.Bias + tzi.DaylightBias) with
    | some local_time_if_unknown, some local_time_if_standard,
        some local_time_if_daylight =>
      if strict = true ∧ local_time_if_unknown.wYear ≠ y
          ∧ local_time_if_standard.wYear ≠ y
          ∧ local_time_if_daylight.wYear ≠ y then
        (TIME_ZONE_ID_INVALID, local_time)
      else
        let copy_to_local_time : Nat → SYSTEMTIME → Nat × SYSTEMTIME :=
          fun id newtime =>
            if strict = true ∧ newtime.wYear ≠ y then
              (TIME_ZONE_ID_INVALID, newtime)
            else (id, newtime)
        match TimezoneTimeToLocalTime tzi.StandardDate y,
            TimezoneTimeToLocalTime tzi.DaylightDate y with
        | some local_standard_start, some local_daylight_start =>
          let is_standard_time_before_daylight_start :=
            CompareSystemTimes local_time_if_standard local_daylight_start < 0
          let is_daylight_time_before_standard_start :=
            CompareSystemTimes local_time_if_daylight local_standard_start < 0
          let cmp_standard_start_to_daylight_start :=
            CompareSystemTimes local_standard_start local_daylight_start
          if cmp_standard_start_to_daylight_start < 0 then
            if ¬is_daylight_time_before_standard_start
                ∧ is_standard_time_before_daylight_start then
              copy_to_local_time TIME_ZONE_ID_STANDARD local_time_if_standard
            else
              copy_to_local_time TIME_ZONE_ID_DAYLIGHT local_time_if_daylight
          else if 0 < cmp_standard_start_to_daylight_start then
            if ¬is_standard_time_before_daylight_start
                ∧ is_daylight_time_before_standard_start then
              copy_to_local_time TIME_ZONE_ID_DAYLIGHT local_time_if_daylight
            else
              copy_to_local_time TIME_ZONE_ID_STANDARD local_time_if_standard
          else if tzi.DaylightBias ≠ 0 then
            copy_to_local_time TIME_ZONE_ID_DAYLIGHT local_time_if_daylight
          else
            copy_to_local_time TIME_ZONE_ID_UNKNOWN local_time_if_unknown
        | _, _ =>
          if strict = true ∧ local_time_if_unknown.wYear ≠ y then
            (TIME_ZONE_ID_INVALID, local_time_if_unknown)
          else (TIME_ZONE_ID_UNKNOWN, local_time_if_unknown)
    | _, _, _ => (TIME_ZONE_ID_INVALID, local_time)

/-- timezone.cpp `GetTimezoneForYear`: the year gate is from the source;
the rest is modelled from the spec, as the abstract TimezoneRuleProvider
("`getRuleSet(year) -> Result<TimezoneRuleSet, Error>`") behind the
platform timezone queries. -/
def GetTimezoneForYear (provider : Nat → Option TIME_ZONE_INFORMATION)
    (year : Nat) : Option TIME_ZONE_INFORMATION :=
  if IsYearValid year = false then none else provider year

/-- One resolution attempt of timezone.cpp `UTCTimeToLocalTime`: fetch
the rule set for a year and resolve, keeping any non-`Invalid` result
as `(local_time, tzi_id, tzi)`. The `local_time` out-parameter passed to
`GetLocalTimeForTimezone` is never read on the paths reachable here
(every year tried has already passed the `GetTimezoneForYear` year gate),
so a fixed zero value stands in for the caller buffer. -/
def AttemptTimezoneResolution (provider : Nat → Option TIME_ZONE_INFORMATION)
    (utc_st : SYSTEMTIME) (year : Nat) (strict : Bool) :
    Option (SYSTEMTIME × Nat × TIME_ZONE_INFORMATION) :=
  match GetTimezoneForYear provider year with
  | none => none
  | some tzi =>
    let r := GetLocalTimeForTimezone zeroSystemTime tzi utc_st year strict
    if r.1 ≠ TIME_ZONE_ID_INVALID then some (r.2, r.1, tzi) else none

/-- timezone.cpp `UTCTimeToLocalTime` (the four-argument overload). On
failure every out-parameter is unspecified by the header contract, hence
`Option`. -/
def UTCTimeToLocalTime (provider : Nat → Option TIME_ZONE_INFORMATION)
    (utc_st : SYSTEMTIME) :
    Option (SYSTEMTIME × Nat × TIME_ZONE_INFORMATION) :=
  if IsSystemTimeValid utc_st = false then none
  else
    let current_year := utc_st.wYear
    let previous_year := current_year - 1
    let next_year := current_year + 1
    if utc_st.wMonth = 1 ∧ utc_st.wDay = 1 then
      match AttemptTimezoneResolution provider utc_st previous_year true with
      | some r => some r
      | none => AttemptTimezoneResolution provider utc_st current_year false
    else
      match AttemptTimezoneResolution provider utc_st current_year true with
      | some r => some r
      | none =>
        if utc_st.wMonth = 12 ∧ utc_st.wDay = 31 then
          AttemptTimezoneResolution provider utc_st next_year false
        else none

/-- The resolution order stated by the spec for `UTCTimeToLocalTime`:
January 1 tries the previous year strictly then the current year
non-strictly; December 31 tries the current year strictly then the next
year non-strictly; every other date tries only the current year
strictly. Each pair is (rule-set year, strict flag). -/
def utcAttemptPlan (utc_st : SYSTEMTIME) : List (Nat × Bool) :=
  if utc_st.wMonth = 1 ∧ utc_st.wDay = 1 then
    [(utc_st.wYear - 1, true), (utc_st.wYear, false)]
  else if utc_st.wMonth = 12 ∧ utc_st.wDay = 31 then
    [(utc_st.wYear, true), (utc_st.wYear + 1, false)]
  else [(utc_st.wYear, true)]

/-- The spec-side description of `UTCTimeToLocalTime`: the first
non-`Invalid` resolution along `utcAttemptPlan`. -/
def UTCTimeToLocalTimePlanned (provider : Nat → Option TIME_ZONE_INFORMATION)
    (utc_st : SYSTEMTIME) :
    Option (SYSTEMTIME × Nat × TIME_ZONE_INFORMATION) :=
  if IsSystemTimeValid utc_st = true then
    (utcAttemptPlan utc_st).findSome?
      (fun yb => AttemptTimezoneResolution provider utc_st yb.1 yb.2)
  else none

/-- A rule set with negative base bias (local time ahead of UTC by one
hour), no standard/daylight adjustment and ignored transition dates —
the shape `GetTimezoneForYear` produces when auto-DST is disabled. -/
def negBiasRuleSet : TIME_ZONE_INFORMATION :=
  ⟨-60, true, zeroSystemTime, 0, true, zeroSystemTime, 0⟩

/-- Modelled from the spec: a concrete TimezoneRuleProvider returning
`negBiasRuleSet` for every valid year. -/
def negBiasProvider : Nat → Option TIME_ZONE_INFORMATION :=
  fun year => if IsYearValid year = true then some negBiasRuleSet else none

/-! ## Helper lemmas -/

theorem compareSystemTimes_self (a : SYSTEMTIME) : CompareSystemTimes a a = 0 := by
  simp [CompareSystemTimes, CompareSystemTimes_IgnoreDayOfWeek]

theorem fileTimeQuad_ofQuad (x : Int) (h1 : -9223372036854775808 ≤ x)
    (h2 : x < 9223372036854775808) : fileTimeQuad (fileTimeOfQuad x) = x := by
  simp only [fileTimeQuad, fileTimeOfQuad]
  have hdm := Nat.div_add_mod (x % 18446744073709551616).toNat 4294967296
  split_ifs with h <;> omega

theorem fileTimeOfQuad_quad (ft : FILETIME)
    (hl : ft.dwLowDateTime < 4294967296) (hh : ft.dwHighDateTime < 4294967296) :
    fileTimeOfQuad (fileTimeQuad ft) = ft := by
  obtain ⟨lo, hi⟩ := ft
  simp only at hl hh
  simp only [fileTimeQuad, fileTimeOfQuad]
  split_ifs with h <;>
    (simp only [FILETIME.mk.injEq]; constructor <;> omega)

theorem fileTimeOfQuad_components (x : Int) :
    (fileTimeOfQuad x).dwLowDateTime < 4294967296
      ∧ (fileTimeOfQuad x).dwHighDateTime < 4294967296 := by
  simp only [fileTimeOfQuad]
  constructor <;> omega

theorem fileTimeQuad_range_of_valid (ft : FILETIME)
    (hl : ft.dwLowDateTime < 4294967296) (hv : IsFileTimeValid ft = true) :
    0 ≤ fileTimeQuad ft ∧ fileTimeQuad ft < 9223372036854775808 := by
  simp only [IsFileTimeValid, Bool.or_eq_true, Bool.and_eq_true,
    decide_eq_true_eq] at hv
  simp only [fileTimeQuad]
  split_ifs with h
  · omega
  · exfalso
    omega

theorem wrap64_bounds (x : Int) :
    -9223372036854775808 ≤ wrap64 x ∧ wrap64 x < 9223372036854775808 := by
  simp only [wrap64]
  omega

/-- Success of `FileTimeSubtract100nsIntervals` for an in-range interval
count means the input was valid and the output is the exact integer
difference, still valid and with in-range words. -/
theorem subtract_intervals_success (ft ft2 : FILETIME) (n : Int)
    (hl : ft.dwLowDateTime < 4294967296) (hh : ft.dwHighDateTime < 4294967296)
    (hn1 : -9223372036854775808 ≤ n) (hn2 : n < 9223372036854775808)
    (h : FileTimeSubtract100nsIntervals ft n = (true, ft2)) :
    fileTimeQuad ft2 = fileTimeQuad ft - n
      ∧ IsFileTimeValid ft = true ∧ IsFileTimeValid ft2 = true
      ∧ ft2.dwLowDateTime < 4294967296 ∧ ft2.dwHighDateTime < 4294967296 := by
  simp only [FileTimeSubtract100nsIntervals] at h
  split_ifs at h with hv h0 hov
  · exact absurd (congrArg Prod.fst h) (by simp)
  · have hft : ft = ft2 := congrArg Prod.snd h
    have hvv : IsFileTimeValid ft = true := by
      revert hv
      cases IsFileTimeValid ft <;> simp
    subst hft h0
    exact ⟨by omega, hvv, hvv, hl, hh⟩
  · exact absurd (congrArg Prod.fst h) (by simp)
  · have hvv : IsFileTimeValid ft = true := by
      revert hv
      cases IsFileTimeValid ft <;> simp
    have hq := fileTimeQuad_range_of_valid ft hl hvv
    have hrange : -9223372036854775808 ≤ fileTimeQuad ft - n
        ∧ fileTimeQuad ft - n < 9223372036854775808 := by
      simp only [LLONG_MIN, LLONG_MAX] at hov
      omega
    have hft : fileTimeOfQuad (fileTimeQuad ft - n) = ft2 :=
      congrArg Prod.snd h
    have hval : IsFileTimeValid (fileTimeOfQuad (fileTimeQuad ft - n)) = true :=
      congrArg Prod.fst h
    subst hft
    refine ⟨fileTimeQuad_ofQuad _ hrange.1 hrange.2, hvv, hval, ?_, ?_⟩
    · exact (fileTimeOfQuad_components _).1
    · exact (fileTimeOfQuad_components _).2

theorem isDateValid_bounds (day month year : Nat)
    (h : IsDateValid day month year = true) :
    IsYearValid year = true ∧ 1 ≤ month ∧ month ≤ 12 ∧ 1 ≤ day ∧ day ≤ 31 := by
  simp only [IsDateValid] at h
  split_ifs at h with hc
  simp only [Bool.or_eq_true, Bool.not_eq_true', decide_eq_true_eq,
    not_or] at hc
  obtain ⟨⟨⟨⟨hcy, h2⟩, h3⟩, h4⟩, h5⟩ := hc
  refine ⟨?_, by omega, by omega, by omega, by omega⟩
  cases hIY : IsYearValid year
  · exact absurd hIY hcy
  · rfl

theorem relaxedValid_fields (st : SYSTEMTIME)
    (h : IsSystemTimeValid_IgnoreDayOfWeek st = true) :
    IsDateValid st.wDay st.wMonth st.wYear = true
      ∧ st.wHour ≤ 23 ∧ st.wMinute ≤ 59 ∧ st.wSecond ≤ 59
      ∧ st.wMilliseconds ≤ 999 := by
  simp only [IsSystemTimeValid_IgnoreDayOfWeek, Bool.and_eq_true,
    decide_eq_true_eq] at h
  exact ⟨h.1.1.1.1, h.1.1.1.2, h.1.1.2, h.1.2, h.2⟩

theorem getDayOfWeek_lt (day month year : Nat) :
    GetDayOfWeek day month year < 7 := by
  unfold GetDayOfWeek
  split
  · omega
  · exact Nat.mod_lt _ (by omega)

/-- The Sakamoto formula is linear in the day: shifting the day shifts
the weekday modulo 7. -/
theorem getDayOfWeek_shift (day month year : Nat)
    (hm1 : 1 ≤ month) (hm2 : month ≤ 12) (hd : 1 ≤ day) :
    GetDayOfWeek day month year
      = (GetDayOfWeek 1 month year + (day - 1)) % 7 := by
  unfold GetDayOfWeek
  have hc : (decide (month < 1) || decide (12 < month)) = false := by
    simp only [Bool.or_eq_false_iff, decide_eq_false_iff_not]
    omega
  rw [hc]
  simp only [Bool.false_eq_true, if_false]
  rw [Nat.mod_add_mod]
  congr 1
  omega

/-- Reconstructing the day of the month from the weekday of the first
of the month, the target weekday and the occurrence offset `k`: the
branch expression of `TimezoneTimeToLocalTime` equals
`(day - 1) % 7 + 1 + k` whenever the target weekday is the weekday of
`day`. -/
theorem relative_day_reconstruction (first w day k : Nat)
    (hf : first < 7)
    (hkey : w = (first + (day - 1)) % 7) :
    (if first ≤ w then (w - first) + 1 + k else (6 - first) + 1 + w + 1 + k)
      = (day - 1) % 7 + 1 + k := by
  have hdm := Nat.div_add_mod (day - 1) 7
  split_ifs with h <;> omega

/-! ## Claims -/

/-- C9: `IsLeapYear year` is true exactly when `year` is divisible by
400, or divisible by 4 but not by 100, for every unsigned year with no
range restriction; and the four quoted sample years evaluate as the
claim states. -/
theorem claim9_leap_year_rule :
    (∀ year : Nat,
      IsLeapYear year = true ↔
        (year % 400 = 0 ∨ (year % 4 = 0 ∧ ¬year % 100 = 0)))
    ∧ IsLeapYear 2000 = true ∧ IsLeapYear 1900 = false
    ∧ IsLeapYear 2024 = true ∧ IsLeapYear 2023 = false := by
  refine ⟨fun year => ?_, by decide, by decide, by decide, by decide⟩
  unfold IsLeapYear
  split_ifs with h1 h2 h3 <;> simp <;> omega

/-- C3 counterexample: a rule set whose pairwise sums
`Bias + StandardBias` and `Bias + DaylightBias` both lie within
`[-1440, 1440]`, yet `AreTimezoneBiasesValid` returns false (because
`Bias` alone exceeds 1440), refuting the claimed equivalence. -/
theorem claim3_counterexample :
    AreTimezoneBiasesValid
        ⟨2000, true, zeroSystemTime, -600, true, zeroSystemTime, -600⟩ = false
    ∧ (-1440 ≤ (2000 : Int) + -600 ∧ (2000 : Int) + -600 ≤ 1440) := by
  constructor
  · decide
  · constructor <;> decide

/-- C3 (amended): `AreTimezoneBiasesValid` returns true iff `Bias`
itself and both pairwise sums `Bias + StandardBias` and
`Bias + DaylightBias` all lie within `[-1440, 1440]` minutes. -/
theorem claim3_biases_valid_iff (tzi : TIME_ZONE_INFORMATION) :
    AreTimezoneBiasesValid tzi = true ↔
      (-1440 ≤ tzi.Bias ∧ tzi.Bias ≤ 1440
        ∧ -1440 ≤ tzi.Bias + tzi.StandardBias
        ∧ tzi.Bias + tzi.StandardBias ≤ 1440
        ∧ -1440 ≤ tzi.Bias + tzi.DaylightBias
        ∧ tzi.Bias + tzi.DaylightBias ≤ 1440) := by
  simp only [AreTimezoneBiasesValid]
  split_ifs with h
  · simp only [Bool.false_eq_true, false_iff]
    omega
  · simp only [true_iff]
    omega

/-- C4 counterexample: a local time whose `wDayOfWeek` disagrees with
the computed weekday of the converted rule while every other field agrees.
The day-of-week-ignoring comparison is 0, but
`CompareLocalTimeToTimezoneTime` returns -1, so the `wDayOfWeek` fields
do influence the result, refuting the claim as stated. -/
theorem claim4_counterexample :
    CompareLocalTimeToTimezoneTime ⟨2015, 6, 0, 15, 0, 0, 0, 0⟩
        ⟨2015, 6, 9, 15, 0, 0, 0, 0⟩ = -1
    ∧ TimezoneTimeToLocalTime ⟨2015, 6, 9, 15, 0, 0, 0, 0⟩ 2015
        = some ⟨2015, 6, 1, 15, 0, 0, 0, 0⟩
    ∧ CompareSystemTimes_IgnoreDayOfWeek ⟨2015, 6, 0, 15, 0, 0, 0, 0⟩
        ⟨2015, 6, 1, 15, 0, 0, 0, 0⟩ = 0
    ∧ (-1 : Int) ≠ 0 := by
  refine ⟨by decide, by decide, by decide, by decide⟩

/-- C4 (amended): when the rule converts for the year of the local time,
`CompareLocalTimeToTimezoneTime` equals the day-of-week-ignoring
lexicographic comparison whenever that comparison is nonzero; on a tie
the `wDayOfWeek` fields decide the result (the comparison used is the
day-of-week-inclusive `CompareSystemTimes`). -/
theorem claim4_compare_delegation (local_st tzt l2 : SYSTEMTIME)
    (h : TimezoneTimeToLocalTime tzt local_st.wYear = some l2) :
    CompareLocalTimeToTimezoneTime local_st tzt =
      (if CompareSystemTimes_IgnoreDayOfWeek local_st l2 = 0 then
        (if local_st.wDayOfWeek < l2.wDayOfWeek then -1
          else if l2.wDayOfWeek < local_st.wDayOfWeek then 1 else 0)
      else CompareSystemTimes_IgnoreDayOfWeek local_st l2) := by
  simp only [CompareLocalTimeToTimezoneTime, h, Option.getD_some,
    CompareSystemTimes]
  by_cases hx : CompareSystemTimes_IgnoreDayOfWeek local_st l2 = 0
  · simp [hx]
  · simp [hx]

/-- C4 witness: the amended statement applied at the counterexample
input, where the day-of-week tiebreaker fires. -/
theorem claim4_witness :
    CompareLocalTimeToTimezoneTime ⟨2015, 6, 0, 15, 0, 0, 0, 0⟩
      ⟨2015, 6, 9, 15, 0, 0, 0, 0⟩ = -1 := by
  have h := claim4_compare_delegation ⟨2015, 6, 0, 15, 0, 0, 0, 0⟩
    ⟨2015, 6, 9, 15, 0, 0, 0, 0⟩ ⟨2015, 6, 1, 15, 0, 0, 0, 0⟩ (by decide)
  rw [h]
  decide

/-- C10: frame effects of `FileTimeSubtract100nsIntervals` on failure.
With an invalid input or a detected signed-64-bit overflow the
out-parameter is returned unchanged; with a valid input and a nonzero
interval count whose subtraction stays in signed 64-bit range but lands
outside the supported span, the function returns false with the
out-parameter overwritten by that out-of-range result. -/
theorem claim10_failure_frame (ft : FILETIME) (intervals : Int) :
    (IsFileTimeValid ft = false →
      FileTimeSubtract100nsIntervals ft intervals = (false, ft))
    ∧ (IsFileTimeValid ft = true → ¬intervals = 0 →
      ((0 < intervals ∧ fileTimeQuad ft < LLONG_MIN + intervals)
        ∨ (intervals < 0 ∧ LLONG_MAX + intervals < fileTimeQuad ft)) →
      FileTimeSubtract100nsIntervals ft intervals = (false, ft))
    ∧ (IsFileTimeValid ft = true → ¬intervals = 0 →
      ¬((0 < intervals ∧ fileTimeQuad ft < LLONG_MIN + intervals)
        ∨ (intervals < 0 ∧ LLONG_MAX + intervals < fileTimeQuad ft)) →
      IsFileTimeValid (fileTimeOfQuad (fileTimeQuad ft - intervals)) = false →
      FileTimeSubtract100nsIntervals ft intervals
        = (false, fileTimeOfQuad (fileTimeQuad ft - intervals))) := by
  refine ⟨fun hv => ?_, fun hv hnz hov => ?_, fun hv hnz hov hout => ?_⟩
  · simp [FileTimeSubtract100nsIntervals, hv]
  · simp [FileTimeSubtract100nsIntervals, hv, hnz, hov]
  · simp [FileTimeSubtract100nsIntervals, hv, hnz, hov, hout]

/-- C10 witness: subtracting -1 tick from the largest supported
timestamp fails with the out-parameter overwritten by the out-of-range
successor. -/
theorem claim10_witness :
    FileTimeSubtract100nsIntervals ⟨4033632496, 2147431924⟩ (-1)
      = (false, ⟨4033632497, 2147431924⟩) := by
  have h := (claim10_failure_frame ⟨4033632496, 2147431924⟩ (-1)).2.2
    (by decide) (by decide) (by decide) (by decide)
  exact h.trans (by decide)

/-- C7: code bug at the failing input. With strict mode enabled and an
out-of-range `tzi_year`, `GetLocalTimeForTimezone` executes
`return false`, which as a DWORD is 0 = `TIME_ZONE_ID_UNKNOWN` — a
documented success code — while the `local_time` out-parameter is left
untouched, so its year does not equal the requested `tzi_year`. Every
other failure path returns `TIME_ZONE_ID_INVALID` as the header
documents. -/
theorem claim7_invalid_year_returns_unknown :
    GetLocalTimeForTimezone zeroSystemTime
        ⟨0, true, zeroSystemTime, 0, true, zeroSystemTime, 0⟩
        ⟨2015, 6, 1, 15, 12, 0, 0, 0⟩ 30828 true
      = (TIME_ZONE_ID_UNKNOWN, zeroSystemTime)
    ∧ TIME_ZONE_ID_UNKNOWN ≠ TIME_ZONE_ID_INVALID
    ∧ zeroSystemTime.wYear ≠ 30828 := by
  refine ⟨by decide, by decide, by decide⟩

/-- C5 counterexample: the minutes→intervals multiplication
`minutes * 10000 * 1000 * 60` is not checked for overflow. At
`minutes = 2^55` the product overflows signed 64-bit (it wraps to 0),
yet `FileTimeAddMinutes` reports success with the timestamp unchanged,
refuting the claim that such calls return failure. -/
theorem claim5_counterexample :
    FileTimeAddMinutes ⟨0, 0⟩ 36028797018963968 = (true, ⟨0, 0⟩)
    ∧ LLONG_MAX < (36028797018963968 : Int) * 10000 * 1000 * 60 := by
  refine ⟨by decide, by decide⟩

/-- C5 (amended): the tick-level addition/subtraction never wraps — on
success the output equals the input shifted by exactly the wrapped
64-bit interval value, with both input and output inside the supported
range — but the minutes→intervals multiplication itself is evaluated
modulo 2^64 with no overflow check, so an overflowing minutes count can
still succeed with the wrapped interval (see the counterexample). -/
theorem claim5_no_silent_tick_wrap :
    (∀ (ft ft2 : FILETIME) (m : Int),
      ft.dwLowDateTime < 4294967296 → ft.dwHighDateTime < 4294967296 →
      FileTimeSubtractMinutes ft m = (true, ft2) →
      fileTimeQuad ft2 = fileTimeQuad ft - wrap64 (m * 10000 * 1000 * 60)
        ∧ IsFileTimeValid ft = true ∧ IsFileTimeValid ft2 = true)
    ∧ (∀ (ft ft2 : FILETIME) (m : Int),
      ft.dwLowDateTime < 4294967296 → ft.dwHighDateTime < 4294967296 →
      FileTimeAddMinutes ft m = (true, ft2) →
      fileTimeQuad ft2 = fileTimeQuad ft + wrap64 (m * 10000 * 1000 * 60)
        ∧ IsFileTimeValid ft = true ∧ IsFileTimeValid ft2 = true) := by
  constructor
  · intro ft ft2 m hl hh h
    simp only [FileTimeSubtractMinutes] at h
    have hw := wrap64_bounds (m * 10000 * 1000 * 60)
    have hs := subtract_intervals_success ft ft2 _ hl hh hw.1 hw.2 h
    exact ⟨hs.1, hs.2.1, hs.2.2.1⟩
  · intro ft ft2 m hl hh h
    simp only [FileTimeAddMinutes, FileTimeAdd100nsIntervals] at h
    have hw := wrap64_bounds (m * 10000 * 1000 * 60)
    split_ifs at h with hg
    · exact absurd (congrArg Prod.fst h) (by simp)
    · have hs := subtract_intervals_success ft ft2 _ hl hh
        (by simp only [LLONG_MIN, LLONG_MAX] at hg ⊢; omega)
        (by simp only [LLONG_MIN, LLONG_MAX] at hg ⊢; omega) h
      refine ⟨by omega, hs.2.1, hs.2.2.1⟩

/-- C5 witness: the subtract direction of the amended statement at a
concrete input. -/
theorem claim5_witness :
    fileTimeQuad ⟨3694967296, 0⟩
        = fileTimeQuad ⟨0, 1⟩ - wrap64 (1 * 10000 * 1000 * 60)
      ∧ IsFileTimeValid ⟨0, 1⟩ = true
      ∧ IsFileTimeValid ⟨3694967296, 0⟩ = true :=
  claim5_no_silent_tick_wrap.1 ⟨0, 1⟩ ⟨3694967296, 0⟩ 1
    (by decide) (by decide) (by decide)

/-- C8: whenever `FileTimeAddMinutes` succeeds, the subsequent
`FileTimeSubtractMinutes` with the same minutes count on the result also
succeeds and restores the original timestamp. -/
theorem claim8_add_subtract_roundtrip (ft ft2 : FILETIME) (m : Int)
    (hl : ft.dwLowDateTime < 4294967296) (hh : ft.dwHighDateTime < 4294967296)
    (h : FileTimeAddMinutes ft m = (true, ft2)) :
    FileTimeSubtractMinutes ft2 m = (true, ft) := by
  simp only [FileTimeAddMinutes, FileTimeAdd100nsIntervals] at h
  have hw := wrap64_bounds (m * 10000 * 1000 * 60)
  split_ifs at h with hg
  · exact absurd (congrArg Prod.fst h) (by simp)
  · have hs := subtract_intervals_success ft ft2 _ hl hh
      (by simp only [LLONG_MIN, LLONG_MAX] at hg ⊢; omega)
      (by simp only [LLONG_MIN, LLONG_MAX] at hg ⊢; omega) h
    obtain ⟨hq2, hvft, hvft2, hl2, hh2⟩ := hs
    have hqr := fileTimeQuad_range_of_valid ft hl hvft
    simp only [FileTimeSubtractMinutes, FileTimeSubtract100nsIntervals, hvft2]
    by_cases h0 : wrap64 (m * 10000 * 1000 * 60) = 0
    · have : ft2 = ft := by
        have e1 := fileTimeOfQuad_quad ft hl hh
        have e2 := fileTimeOfQuad_quad ft2 hl2 hh2
        rw [← e1, ← e2, hq2, h0]
        simp
      subst this
      simp [h0]
    · have hnov : ¬((0 < wrap64 (m * 10000 * 1000 * 60)
          ∧ fileTimeQuad ft2 < LLONG_MIN + wrap64 (m * 10000 * 1000 * 60))
        ∨ (wrap64 (m * 10000 * 1000 * 60) < 0
          ∧ LLONG_MAX + wrap64 (m * 10000 * 1000 * 60) < fileTimeQuad ft2)) := by
        simp only [LLONG_MIN, LLONG_MAX]
        omega
      simp only [h0, hnov, if_neg, if_false]
      have hback : fileTimeQuad ft2 - wrap64 (m * 10000 * 1000 * 60)
          = fileTimeQuad ft := by omega
      rw [hback, fileTimeOfQuad_quad ft hl hh, hvft]
      simp

/-- C8 witness: one add/subtract round trip at a concrete input. -/
theorem claim8_witness :
    FileTimeSubtractMinutes ⟨600000000, 0⟩ 1 = (true, ⟨0, 0⟩) :=
  claim8_add_subtract_roundtrip ⟨0, 0⟩ ⟨600000000, 0⟩ 1
    (by decide) (by decide) (by decide)

/-- C1: when both transition rules convert to the same absolute local
boundary for the target year (and resolution reaches the comparison:
rule set valid, candidate subtractions succeed, and in strict mode the
relevant candidates match the target year), `GetLocalTimeForTimezone`
returns `TIME_ZONE_ID_DAYLIGHT` iff `DaylightBias` is nonzero, and with
`DaylightBias = 0` it returns `TIME_ZONE_ID_UNKNOWN` carrying the
base-bias candidate — never Daylight. -/
theorem claim1_coincident_transition_tie
    (local_time utc_st : SYSTEMTIME) (tzi : TIME_ZONE_INFORMATION)
    (tzi_year : Nat) (strict : Bool) (ltu lts ltd bdry : SYSTEMTIME)
    (hy0 : ¬tzi_year = 0)
    (hy : IsYearValid tzi_year = true)
    (hinfo : IsTimezoneInfoValid tzi true = true)
    (hu : SystemTimeSubtractMinutes utc_st tzi.Bias = some ltu)
    (hs : SystemTimeSubtractMinutes utc_st (tzi.Bias + tzi.StandardBias)
      = some lts)
    (hd : SystemTimeSubtractMinutes utc_st (tzi.Bias + tzi.DaylightBias)
      = some ltd)
    (hss : TimezoneTimeToLocalTime tzi.StandardDate tzi_year = some bdry)
    (hds : TimezoneTimeToLocalTime tzi.DaylightDate tzi_year = some bdry)
    (hstrict : strict = true → ltu.wYear = tzi_year ∧ ltd.wYear = tzi_year) :
    ((GetLocalTimeForTimezone local_time tzi utc_st tzi_year strict).1
        = TIME_ZONE_ID_DAYLIGHT ↔ ¬tzi.DaylightBias = 0)
    ∧ (tzi.DaylightBias = 0 →
      GetLocalTimeForTimezone local_time tzi utc_st tzi_year strict
        = (TIME_ZONE_ID_UNKNOWN, ltu)) := by
  have hshort : ¬(strict = true ∧ ltu.wYear ≠ tzi_year ∧ lts.wYear ≠ tzi_year
      ∧ ltd.wYear ≠ tzi_year) := by
    rintro ⟨h1, h2, h3, h4⟩
    exact h2 (hstrict h1).1
  have hcu : ¬(strict = true ∧ ltu.wYear ≠ tzi_year) := by
    rintro ⟨h1, h2⟩
    exact h2 (hstrict h1).1
  have hcd : ¬(strict = true ∧ ltd.wYear ≠ tzi_year) := by
    rintro ⟨h1, h2⟩
    exact h2 (hstrict h1).2
  by_cases hdb : tzi.DaylightBias = 0
  · rw [hdb, add_zero] at hd
    have hdu : ltd = ltu := Option.some.inj (hd.symm.trans hu)
    rw [hdu] at hshort hcd
    have hres : GetLocalTimeForTimezone local_time tzi utc_st tzi_year strict
        = (TIME_ZONE_ID_UNKNOWN, ltu) := by
      simp [GetLocalTimeForTimezone, hy0, hy, hinfo, hu, hs, hd, hss, hds,
        compareSystemTimes_self, hshort, hcu, hdb]
    rw [hres]
    refine ⟨?_, fun _ => rfl⟩
    simp [TIME_ZONE_ID_UNKNOWN, TIME_ZONE_ID_DAYLIGHT, hdb]
  · have hres : GetLocalTimeForTimezone local_time tzi utc_st tzi_year strict
        = (TIME_ZONE_ID_DAYLIGHT, ltd) := by
      simp [GetLocalTimeForTimezone, hy0, hy, hinfo, hu, hs, hd, hss, hds,
        compareSystemTimes_self, hshort, hcd, hdb]
    rw [hres]
    exact ⟨by simp [hdb], fun h => absurd h hdb⟩

/-- C1 witness: a rule set whose standard and daylight transitions are
both "2nd Sunday of March 02:00" and whose `DaylightBias` is zero
resolves to `TIME_ZONE_ID_UNKNOWN` with the base-bias local time. -/
theorem claim1_witness :
    GetLocalTimeForTimezone zeroSystemTime
        ⟨300, true, ⟨0, 3, 0, 2, 2, 0, 0, 0⟩, 0, true,
          ⟨0, 3, 0, 2, 2, 0, 0, 0⟩, 0⟩
        ⟨2015, 6, 1, 15, 12, 0, 0, 0⟩ 2015 false
      = (TIME_ZONE_ID_UNKNOWN, ⟨2015, 6, 1, 15, 7, 0, 0, 0⟩) :=
  (claim1_coincident_transition_tie zeroSystemTime ⟨2015, 6, 1, 15, 12, 0, 0, 0⟩
    ⟨300, true, ⟨0, 3, 0, 2, 2, 0, 0, 0⟩, 0, true, ⟨0, 3, 0, 2, 2, 0, 0, 0⟩, 0⟩
    2015 false
    ⟨2015, 6, 1, 15, 7, 0, 0, 0⟩ ⟨2015, 6, 1, 15, 7, 0, 0, 0⟩
    ⟨2015, 6, 1, 15, 7, 0, 0, 0⟩ ⟨2015, 3, 0, 8, 2, 0, 0, 0⟩
    (by decide) (by decide) (by decide) (by decide) (by decide) (by decide)
    (by decide) (by decide) (fun hc => absurd hc (by decide))).2 rfl

/-- C6: `UTCTimeToLocalTime` attempts rule sets exactly in the order
described by `utcAttemptPlan` — January 1: previous year strict, then
current year non-strict; December 31: current year strict, then next
year non-strict; otherwise current year strict only — returning the
first non-`Invalid` resolution. In particular UTC 2014-12-31T23:30:00
with base bias -60 fails the current-year strict attempt and resolves
via the next-year fallback to a local time with year 2015. -/
theorem claim6_resolution_order :
    (∀ (provider : Nat → Option TIME_ZONE_INFORMATION) (utc_st : SYSTEMTIME),
      UTCTimeToLocalTime provider utc_st
        = UTCTimeToLocalTimePlanned provider utc_st)
    ∧ (UTCTimeToLocalTime negBiasProvider ⟨2014, 12, 3, 31, 23, 30, 0, 0⟩).map
        (fun r => r.1.wYear) = some 2015
    ∧ AttemptTimezoneResolution negBiasProvider
        ⟨2014, 12, 3, 31, 23, 30, 0, 0⟩ 2014 true = none := by
  refine ⟨fun provider utc_st => ?_, by decide, by decide⟩
  by_cases hv : IsSystemTimeValid utc_st = false
  · simp [UTCTimeToLocalTime, UTCTimeToLocalTimePlanned, hv]
  · have hv2 : IsSystemTimeValid utc_st = true := by
      revert hv
      cases IsSystemTimeValid utc_st <;> simp
    by_cases h1 : utc_st.wMonth = 1 ∧ utc_st.wDay = 1
    · simp only [UTCTimeToLocalTime, UTCTimeToLocalTimePlanned, utcAttemptPlan,
        hv2, h1, if_true, if_false, Bool.true_eq_false, List.findSome?]
      cases AttemptTimezoneResolution provider utc_st (utc_st.wYear - 1) true
        <;> simp [List.findSome?]
      cases AttemptTimezoneResolution provider utc_st utc_st.wYear false
        <;> rfl
    · by_cases h2 : utc_st.wMonth = 12 ∧ utc_st.wDay = 31
      · simp only [UTCTimeToLocalTime, UTCTimeToLocalTimePlanned,
          utcAttemptPlan, hv2, h1, h2, if_true, if_false, Bool.true_eq_false,
          List.findSome?]
        cases AttemptTimezoneResolution provider utc_st utc_st.wYear true
          <;> simp [List.findSome?, h1, h2]
        cases AttemptTimezoneResolution provider utc_st (utc_st.wYear + 1) false
          <;> rfl
      · simp only [UTCTimeToLocalTime, UTCTimeToLocalTimePlanned,
          utcAttemptPlan, hv2, h1, h2, if_true, if_false, Bool.true_eq_false,
          List.findSome?]
        cases AttemptTimezoneResolution provider utc_st utc_st.wYear true
          <;> simp [List.findSome?, h1, h2]

/-- C2: for every strictly valid calendar time `d`, converting to a
relative rule with the last-occurrence promotion flag set and back to an
absolute date for the year of `d` reproduces `d` exactly, including month-end
dates whose 4th weekday occurrence is also the last of the month. -/
theorem claim2_relative_roundtrip (d : SYSTEMTIME)
    (h : IsSystemTimeValid d = true) :
    (LocalTimeToRelativeTimezoneTime d true).bind
      (fun tzt => TimezoneTimeToLocalTime tzt d.wYear) = some d := by
  obtain ⟨dy, dmo, dw, dd, dh, dmi, dsec, dms⟩ := d
  have hrel : IsSystemTimeValid_IgnoreDayOfWeek
      ⟨dy, dmo, dw, dd, dh, dmi, dsec, dms⟩ = true := by
    simp only [IsSystemTimeValid, Bool.and_eq_true] at h
    exact h.1
  have hdow : dw = GetDayOfWeek dd dmo dy := by
    simp only [IsSystemTimeValid, Bool.and_eq_true, decide_eq_true_eq] at h
    exact h.2
  obtain ⟨hdate, hh23, hm59, hs59, hms999⟩ := relaxedValid_fields _ hrel
  dsimp only at hdate hh23 hm59 hs59 hms999
  obtain ⟨hy, hm1, hm2, hd1, hd31⟩ := isDateValid_bounds _ _ _ hdate
  have hw7 := getDayOfWeek_lt dd dmo dy
  have hf7 := getDayOfWeek_lt 1 dmo dy
  have hkey : GetDayOfWeek dd dmo dy = (GetDayOfWeek 1 dmo dy + (dd - 1)) % 7 :=
    getDayOfWeek_shift dd dmo dy hm1 hm2 hd1
  simp only [LocalTimeToRelativeTimezoneTime, hrel, Bool.true_eq_false,
    if_false, eq_self_iff_true, and_true, Option.some_bind]
  by_cases hpromo : (dd - 1) / 7 + 1 = 4
      ∧ IsDateValid (dd + 7) dmo dy = false
  · rw [if_pos hpromo]
    have hrelv : IsRelativeTimezoneTimeValid
        ⟨0, dmo, GetDayOfWeek dd dmo dy, 5, dh, dmi, dsec, dms⟩ = true := by
      simp only [IsRelativeTimezoneTimeValid, Bool.and_eq_true,
        decide_eq_true_eq, true_and, and_true]
      omega
    simp only [TimezoneTimeToLocalTime, hrelv, Bool.true_eq_false, ite_false,
      ite_true, hy]
    rw [relative_day_reconstruction (GetDayOfWeek 1 dmo dy)
      (GetDayOfWeek dd dmo dy) dd ((5 - 1) * 7) hf7 hkey]
    have hD : (dd - 1) % 7 + 1 + (5 - 1) * 7 = dd + 7 := by
      have := Nat.div_add_mod (dd - 1) 7
      omega
    rw [hD, hpromo.2]
    simp only [eq_self_iff_true, ite_true, Nat.add_sub_cancel]
    rw [← hdow]
  · rw [if_neg hpromo]
    have hrelv2 : IsRelativeTimezoneTimeValid
        ⟨0, dmo, GetDayOfWeek dd dmo dy, (dd - 1) / 7 + 1,
          dh, dmi, dsec, dms⟩ = true := by
      simp only [IsRelativeTimezoneTimeValid, Bool.and_eq_true,
        decide_eq_true_eq, true_and, and_true]
      omega
    simp only [TimezoneTimeToLocalTime, hrelv2, Bool.true_eq_false, ite_false,
      ite_true, hy]
    rw [relative_day_reconstruction (GetDayOfWeek 1 dmo dy)
      (GetDayOfWeek dd dmo dy) dd (((dd - 1) / 7 + 1 - 1) * 7) hf7 hkey]
    have hD2 : (dd - 1) % 7 + 1 + ((dd - 1) / 7 + 1 - 1) * 7 = dd := by
      have := Nat.div_add_mod (dd - 1) 7
      omega
    rw [hD2, hdate]
    simp only [Bool.true_eq_false, ite_false]
    rw [← hdow]

/-- C2 witness: 2021-02-22, a Monday whose 4th-occurrence is also the
last Monday of a 28-day February, survives the round trip. -/
theorem claim2_witness :
    (LocalTimeToRelativeTimezoneTime ⟨2021, 2, 1, 22, 9, 30, 0, 0⟩ true).bind
        (fun tzt => TimezoneTimeToLocalTime tzt
          (SYSTEMTIME.wYear ⟨2021, 2, 1, 22, 9, 30, 0, 0⟩))
      = some ⟨2021, 2, 1, 22, 9, 30, 0, 0⟩ :=
  claim2_relative_roundtrip ⟨2021, 2, 1, 22, 9, 30, 0, 0⟩ (by decide)

end JayTime
